import Mathlib

/-!
Verification of the MindScope client-side state-synchronization layer.

This file shallowly embeds the data model and the operations of the
repository's core subsystem:

* `normalizeProjectData` and `DEFAULT_PROJECT` (src/studio/src/app/page.tsx),
* `calculateProjectProgress` (src/studio/src/lib/services/progress-tracker.ts),
* `cleanUndefinedValues` (page.tsx),
* the active-project `onValue` listener, the debounced save effect, and
  `handleUpdateMicrotask` (page.tsx),
* `MicrotaskItem.handleToggleComplete` and `handleSave`
  (components/mindscope/microtask-item),
* `generateProjectStateHash` and `shouldRunOptimization`
  (lib/optimization-utils).

JavaScript values that may be a missing key, `null`, or a present value are
modelled by the three-state type `JVal`.  Numbers are modelled by `Rat`
(the repository never relies on float rounding behaviour), timestamps by
`Nat`.
-/

/-- A JavaScript field position: the key may be absent (reading it yields
`undefined`), present with value `null`, or present with a proper value. -/
inductive JVal (α : Type) : Type
  | absent : JVal α
  | null : JVal α
  | val : α → JVal α
  deriving DecidableEq, Repr

namespace JVal

/-- JS truthiness of a field holding a value of type `α`, given truthiness
of the values themselves. -/
def truthyWith {α : Type} (f : α → Bool) : JVal α → Bool
  | .absent => false
  | .null => false
  | .val a => f a

/-- `x ?? d` / spread-with-default: a key absent in the source object falls
back to the default, `null` and proper values override it. -/
def spread {α : Type} (dflt : JVal α) : JVal α → JVal α
  | .absent => dflt
  | v => v

end JVal

/-- `x || d` for a string field: absent, `null` and `''` are falsy. -/
def jsOrString (d : String) : JVal String → String
  | .absent => d
  | .null => d
  | .val s => if s = "" then d else s

/-- `x || d` for a numeric field: absent, `null` and `0` are falsy. -/
def jsOrNum (d : Rat) : JVal Rat → Rat
  | .absent => d
  | .null => d
  | .val q => if q = 0 then d else q

/-- `x || false` for a boolean field. -/
def jsOrFalse : JVal Bool → Bool
  | .absent => false
  | .null => false
  | .val b => b

/-- `x || []` for an array field.  A present array is always truthy in JS
(including the empty array), so only absent/`null` fall back. -/
def jsOrList {α : Type} : JVal (List α) → List α
  | .absent => []
  | .null => []
  | .val l => l

/-- `Math.round` on a non-negative rational: `⌊q + 1/2⌋`. -/
def mathRound (q : Rat) : Int := Rat.floor (q + 1/2)

/-- `TaskDependency` (src/studio/src/lib/types.ts). -/
structure TaskDependency where
  id : String
  dependsOn : String
  type : String
  description : Option String
  deriving DecidableEq, Repr

/-- `TechStack` (types.ts). -/
structure TechStack where
  frontend : List String
  backend : List String
  database : List String
  deployment : List String
  tools : List String
  deriving DecidableEq, Repr

/-- `ProjectMetadata` (types.ts).  Enum-typed fields are modelled as
strings; TypeScript types are not checked at runtime and
`normalizeProjectData` copies metadata wholesale. -/
structure ProjectMetadata where
  projectType : String
  targetPlatform : List String
  techStack : TechStack
  teamSize : Rat
  budget : Option Rat
  timeline : Option Rat
  complexity : String
  deriving DecidableEq, Repr

/-- The `stateData` object built inside `generateProjectStateHash`
(lib/optimization-utils).  The source hashes
`btoa(JSON.stringify(stateData)).replace(/[^a-zA-Z0-9]/g, '')`; since that
is a function of `stateData`, we model the hash by the `stateData` record
itself (`techStack` is stored structurally: equal structures stringify
equally). -/
structure StateData where
  title : JVal String
  description : JVal String
  phasesCount : Nat
  totalTasks : Nat
  completedTasks : Nat
  totalEstimatedTime : JVal Rat
  progressPercentage : Int
  techStack : TechStack
  complexity : String
  teamSize : Rat
  deriving DecidableEq, Repr

/-- `OptimizationResults` (types), as produced by
`createOptimizationResults`: the `projectStateHash` is modelled by the
`StateData` it encodes. -/
structure OptimizationResults where
  optimizations : List String
  timelinePrediction : String
  scopeAdjustments : List String
  riskAlerts : List String
  generatedAt : Nat
  projectStateHash : StateData
  deriving DecidableEq, Repr

/-- A microtask in the shape produced by `normalizeProjectData`
(page.tsx:1390-1413): `id` and `name` are copied through unchanged (so may
be an absent/`null` raw value), `description`/`estimatedTime`/`isCompleted`/
`priority`/`complexity`/`dependencies`/`tags` are always present thanks to
`||` defaults, and `actualTime`/`notes`/`completedAt` are present only when
the raw document carried a valid value. -/
structure Microtask where
  id : JVal String
  name : JVal String
  description : String
  estimatedTime : Rat
  isCompleted : Bool
  priority : String
  complexity : String
  dependencies : List TaskDependency
  tags : List String
  actualTime : Option Rat
  notes : Option String
  completedAt : Option Nat
  deriving DecidableEq, Repr

/-- A raw (Firebase-delivered) microtask: every field may be absent or
`null`. -/
structure RawMicrotask where
  id : JVal String
  name : JVal String
  description : JVal String
  estimatedTime : JVal Rat
  actualTime : JVal Rat
  isCompleted : JVal Bool
  priority : JVal String
  complexity : JVal String
  dependencies : JVal (List TaskDependency)
  tags : JVal (List String)
  notes : JVal String
  completedAt : JVal Nat
  deriving DecidableEq, Repr

/-- A phase in the shape produced by `normalizeProjectData`
(page.tsx:1387-1415): `{...phase, microtasks: ...}` — every field other
than `microtasks` is spread through unchanged. -/
structure Phase where
  id : JVal String
  name : JVal String
  description : JVal String
  microtasks : List Microtask
  estimatedDuration : JVal Rat
  actualDuration : JVal Rat
  startDate : JVal Nat
  endDate : JVal Nat
  milestone : JVal Bool
  deriving DecidableEq, Repr

/-- A raw phase. -/
structure RawPhase where
  id : JVal String
  name : JVal String
  description : JVal String
  microtasks : JVal (List RawMicrotask)
  estimatedDuration : JVal Rat
  actualDuration : JVal Rat
  startDate : JVal Nat
  endDate : JVal Nat
  milestone : JVal Bool
  deriving DecidableEq, Repr

/-- A project in the shape produced by `normalizeProjectData`
(page.tsx:1382-1434): top-level scalars come from
`{...DEFAULT_PROJECT, ...data}` (so may be `null` if the raw document holds
`null`), `phases` is always a cleaned array, `metadata` is always a proper
object (falsy metadata is replaced by the default), and
`progressPercentage` is recomputed. -/
structure Project where
  title : JVal String
  description : JVal String
  phases : List Phase
  team : JVal (List String)
  lastModified : JVal Nat
  metadata : ProjectMetadata
  totalEstimatedTime : JVal Rat
  totalActualTime : JVal Rat
  progressPercentage : Int
  createdAt : JVal Nat
  templateId : JVal String
  optimizationResults : JVal OptimizationResults
  deriving DecidableEq, Repr

/-- A raw project document as delivered by the remote store. -/
structure RawProject where
  title : JVal String
  description : JVal String
  phases : JVal (List RawPhase)
  team : JVal (List String)
  lastModified : JVal Nat
  metadata : JVal ProjectMetadata
  totalEstimatedTime : JVal Rat
  totalActualTime : JVal Rat
  progressPercentage : JVal Rat
  createdAt : JVal Nat
  templateId : JVal String
  optimizationResults : JVal OptimizationResults
  deriving DecidableEq, Repr

/-- `DEFAULT_PROJECT.metadata` (page.tsx:1363-1374). -/
def defaultMetadata : ProjectMetadata :=
  { projectType := "web-app"
    targetPlatform := []
    techStack := { frontend := [], backend := [], database := [],
                   deployment := [], tools := [] }
    teamSize := 1
    budget := none
    timeline := none
    complexity := "moderate" }

/-- `DEFAULT_PROJECT.createdAt` is `Date.now()` evaluated once at module
load; its concrete value is immaterial to every property proved here. -/
def defaultCreatedAt : Nat := 0

/-- `DEFAULT_PROJECT` (page.tsx:1357-1379), as a raw document (it is spread
under the incoming data).  Fields the literal does not define
(`totalActualTime`, `templateId`, `optimizationResults`) are absent. -/
def DEFAULT_PROJECT : RawProject :=
  { title := .val ""
    description := .val ""
    phases := .val []
    team := .val []
    lastModified := .null
    metadata := .val defaultMetadata
    totalEstimatedTime := .val 0
    totalActualTime := .absent
    progressPercentage := .val 0
    createdAt := .val defaultCreatedAt
    templateId := .absent
    optimizationResults := .absent }

/-- The `cleanTask` construction inside `normalizeProjectData`
(page.tsx:1389-1413). -/
def normalizeMicrotask (task : RawMicrotask) : Microtask :=
  { id := task.id
    name := task.name
    description := jsOrString "" task.description
    estimatedTime := jsOrNum 0 task.estimatedTime
    isCompleted := jsOrFalse task.isCompleted
    priority := jsOrString "medium" task.priority
    complexity := jsOrString "moderate" task.complexity
    dependencies := jsOrList task.dependencies
    tags := jsOrList task.tags
    actualTime := match task.actualTime with
      | .val q => some q
      | _ => none
    notes := match task.notes with
      | .val s => if s = "" then none else some s
      | _ => none
    completedAt := match task.completedAt with
      | .val t => some t
      | _ => none }

/-- The per-phase map inside `normalizeProjectData` (page.tsx:1387-1415):
`{...phase, microtasks: Array.isArray(phase.microtasks) ? map : []}`. -/
def normalizePhase (phase : RawPhase) : Phase :=
  { id := phase.id
    name := phase.name
    description := phase.description
    microtasks := (jsOrList phase.microtasks).map normalizeMicrotask
    estimatedDuration := phase.estimatedDuration
    actualDuration := phase.actualDuration
    startDate := phase.startDate
    endDate := phase.endDate
    milestone := phase.milestone }

/-- `calculateProjectProgress` (progress-tracker.ts:7-13), on the
normalized shape it is applied to. -/
def calculateProjectProgress (phases : List Phase) : Int :=
  let allTasks := phases.flatMap (fun phase => phase.microtasks)
  if allTasks.length = 0 then 0
  else
    let completedTasks := allTasks.filter (fun task => task.isCompleted)
    mathRound ((completedTasks.length : Rat) / (allTasks.length : Rat) * 100)

/-- The `phases` block of `normalizeProjectData` (page.tsx:1386-1418):
`if (normalized.phases && Array.isArray(normalized.phases))` map each
phase, `else` the empty array. -/
def normalizePhasesField (phases : JVal (List RawPhase)) : List Phase :=
  match phases with
  | .val l => l.map normalizePhase
  | _ => []

/-- `normalizeProjectData` (page.tsx:1382-1434). -/
def normalizeProjectData (data : RawProject) : Project :=
  -- const normalized = { ...DEFAULT_PROJECT, ...data };
  let phases :=
    normalizePhasesField (JVal.spread DEFAULT_PROJECT.phases data.phases)
  { title := JVal.spread DEFAULT_PROJECT.title data.title
    description := JVal.spread DEFAULT_PROJECT.description data.description
    phases := phases
    team := JVal.spread DEFAULT_PROJECT.team data.team
    lastModified := JVal.spread DEFAULT_PROJECT.lastModified data.lastModified
    -- if (!normalized.metadata) normalized.metadata = DEFAULT_PROJECT.metadata;
    metadata := match JVal.spread DEFAULT_PROJECT.metadata data.metadata with
      | .val m => m
      | _ => defaultMetadata
    totalEstimatedTime :=
      JVal.spread DEFAULT_PROJECT.totalEstimatedTime data.totalEstimatedTime
    totalActualTime :=
      JVal.spread DEFAULT_PROJECT.totalActualTime data.totalActualTime
    -- normalized.progressPercentage = calculateProjectProgress(normalized);
    progressPercentage := calculateProjectProgress phases
    createdAt := JVal.spread DEFAULT_PROJECT.createdAt data.createdAt
    templateId := JVal.spread DEFAULT_PROJECT.templateId data.templateId
    -- if (data.optimizationResults) normalized.optimizationResults = ...
    -- (the spread already copied it; a `null` stays null, absent stays absent)
    optimizationResults :=
      JVal.spread DEFAULT_PROJECT.optimizationResults data.optimizationResults }

/-- The raw form of a normalized microtask: required fields are present
keys; `actualTime`/`notes`/`completedAt` are keys only when set
("Only add optional fields if they have valid values"). -/
def microtaskToRaw (m : Microtask) : RawMicrotask :=
  { id := m.id
    name := m.name
    description := .val m.description
    estimatedTime := .val m.estimatedTime
    actualTime := match m.actualTime with
      | some q => .val q
      | none => .absent
    isCompleted := .val m.isCompleted
    priority := .val m.priority
    complexity := .val m.complexity
    dependencies := .val m.dependencies
    tags := .val m.tags
    notes := match m.notes with
      | some s => .val s
      | none => .absent
    completedAt := match m.completedAt with
      | some t => .val t
      | none => .absent }

/-- The raw form of a normalized phase. -/
def phaseToRaw (p : Phase) : RawPhase :=
  { id := p.id
    name := p.name
    description := p.description
    microtasks := .val (p.microtasks.map microtaskToRaw)
    estimatedDuration := p.estimatedDuration
    actualDuration := p.actualDuration
    startDate := p.startDate
    endDate := p.endDate
    milestone := p.milestone }

/-- The raw form of a normalized project (what the document looks like
when read back after being written). -/
def projectToRaw (p : Project) : RawProject :=
  { title := p.title
    description := p.description
    phases := .val (p.phases.map phaseToRaw)
    team := p.team
    lastModified := p.lastModified
    metadata := .val p.metadata
    totalEstimatedTime := p.totalEstimatedTime
    totalActualTime := p.totalActualTime
    progressPercentage := .val (p.progressPercentage : Rat)
    createdAt := p.createdAt
    templateId := p.templateId
    optimizationResults := p.optimizationResults }

example : (normalizeProjectData DEFAULT_PROJECT).progressPercentage = 0 := by
  decide

/-!
## JavaScript value trees and `cleanUndefinedValues`

`cleanUndefinedValues` (page.tsx:1553-1568) operates on arbitrary JS
values, modelled by `JSVal`.  `typeof x !== 'object'` short-circuits for
`undefined`, booleans, numbers and strings; `null` is returned by the
explicit null check; arrays are mapped element-wise; objects drop
`undefined`-valued keys and recurse into the rest.
-/

inductive JSVal : Type
  | undef : JSVal
  | null : JSVal
  | bool : Bool → JSVal
  | num : Rat → JSVal
  | str : String → JSVal
  | arr : List JSVal → JSVal
  | obj : List (String × JSVal) → JSVal

theorem sizeOf_snd_lt {kv : String × JSVal} {kvs : List (String × JSVal)}
    (h : kv ∈ kvs) : sizeOf kv.2 < 1 + sizeOf kvs := by
  have h1 := List.sizeOf_lt_of_mem h
  cases kv with
  | mk k v => simp at h1 ⊢; omega

theorem all_map_id {β : Type} (m : List β) (g : β → Bool) :
    (m.map g).all id = m.all g := by
  induction m with
  | nil => rfl
  | cons a t ih => simp [List.all_cons] at *; rw [ih]

theorem all_attach {α : Type} (l : List α) (f : α → Bool) :
    l.attach.all (fun x => f x.1) = l.all f := by
  calc l.attach.all (fun x => f x.1)
      = (l.attach.map (fun x => f x.1)).all id := (all_map_id _ _).symm
    _ = (l.map f).all id := congrArg (fun m => m.all id) (List.attach_map_val _ f)
    _ = l.all f := all_map_id _ _

def cleanUndefinedValues : JSVal → JSVal
  | .undef => .undef
  | .null => .null
  | .bool b => .bool b
  | .num q => .num q
  | .str s => .str s
  | .arr l => .arr (l.attach.map (fun x => cleanUndefinedValues x.1))
  | .obj kvs =>
      .obj ((kvs.filter (fun kv => !(kv.2 matches JSVal.undef))).attach.map
        (fun kv => (kv.1.1, cleanUndefinedValues kv.1.2)))
termination_by v => sizeOf v
decreasing_by
  · have := List.sizeOf_lt_of_mem x.2
    simp at *
    omega
  · have := sizeOf_snd_lt (List.mem_of_mem_filter kv.2)
    simp at *
    omega

theorem clean_arr (l : List JSVal) :
    cleanUndefinedValues (.arr l) = .arr (l.map cleanUndefinedValues) := by
  rw [cleanUndefinedValues]
  exact congrArg JSVal.arr (List.attach_map_val _ cleanUndefinedValues)

theorem clean_obj (kvs : List (String × JSVal)) :
    cleanUndefinedValues (.obj kvs) =
      .obj ((kvs.filter (fun kv => !(kv.2 matches JSVal.undef))).map
        (fun kv => (kv.1, cleanUndefinedValues kv.2))) := by
  rw [cleanUndefinedValues]
  exact congrArg JSVal.obj (List.attach_map_val _ (fun kv : String × JSVal => (kv.1, cleanUndefinedValues kv.2)))

def noUndefObjField : JSVal → Bool
  | .undef => true
  | .null => true
  | .bool _ => true
  | .num _ => true
  | .str _ => true
  | .arr l => l.attach.all (fun x => noUndefObjField x.1)
  | .obj kvs => kvs.attach.all
      (fun kv => !(kv.1.2 matches JSVal.undef) && noUndefObjField kv.1.2)
termination_by v => sizeOf v
decreasing_by
  · have := List.sizeOf_lt_of_mem x.2
    simp at *
    omega
  · have := sizeOf_snd_lt kv.2
    simp at *
    omega

theorem noUndef_arr (l : List JSVal) :
    noUndefObjField (.arr l) = l.all (fun x => noUndefObjField x) := by
  rw [noUndefObjField]
  exact all_attach l (fun x => noUndefObjField x)

theorem noUndef_obj (kvs : List (String × JSVal)) :
    noUndefObjField (.obj kvs) = kvs.all
      (fun kv => !(kv.2 matches JSVal.undef) && noUndefObjField kv.2) := by
  rw [noUndefObjField]
  exact all_attach kvs (fun kv => !(kv.2 matches JSVal.undef) && noUndefObjField kv.2)

example : cleanUndefinedValues (.obj [("a", .arr [.undef])]) = .obj [("a", .arr [.undef])] := by
  rw [clean_obj]
  simp [List.filter, clean_arr, cleanUndefinedValues]

/-!
## The write-coordinator page state and its handlers

`MindScopePage` (page.tsx:1436-2230) keeps the local edit buffer in
`currentProjectData`, a write lock in `isWritingToDb`, an
`isOptimisticUpdateRef` flag, and a pending debounce timer in
`writeTimeoutRef`.  Times are in milliseconds.  Writes are logged as
`(time issued, document)`; the bytes actually transmitted are
`cleanUndefinedValues` of the document's raw form with
`lastModified: serverTimestamp()`, a deterministic function of the logged
document.

The embedding has two levels.  This section models each handler and each
effect *body* as a state transformer on `PageState`; properties of a
single handler invocation (the `onValue` suppression check, the immediate
completion write, the synchronous buffer update) are stated against these.
The save effect, however, does not only run when the buffer changes: its
dependency array (page.tsx:1618) also lists `isWritingToDb` and
`isDataLoading`, so every change to those re-renders and re-runs it, and
each run unconditionally re-schedules a 400 ms flush whose `setTimeout`
closure captures the then-current `currentProjectData` and
`isWritingToDb`.  The scheduler-level model further below (`SyncState`,
`saveEffectRun`, `setWriting`, `timerFires`, ...) makes those re-runs and
captures explicit; whole-trace properties (how many writes a burst
causes, what happens after a flush settles) are stated against it.
-/

structure PageState where
  currentProjectData : Option Project
  isWritingToDb : Bool
  isOptimisticUpdate : Bool
  isDataLoading : Bool
  /-- pending flush timer: deadline and the buffer value captured by the
  `setTimeout` closure (page.tsx:1578). -/
  writeTimeout : Option (Nat × Project)
  writes : List (Nat × Project)
  toasts : List String
  deriving DecidableEq, Repr

/-- The active-project `onValue` callback (page.tsx:1522-1538): while
`isWritingToDb` or `isOptimisticUpdateRef.current` is set the snapshot is
dropped; otherwise the buffer is replaced with the normalized document
(or cleared for a null snapshot). -/
def onActiveProjectValue (st : PageState) (snapshot : Option RawProject) :
    PageState :=
  if st.isWritingToDb || st.isOptimisticUpdate then
    { st with isDataLoading := false }
  else
    match snapshot with
    | some data =>
        { st with currentProjectData := some (normalizeProjectData data),
                  isDataLoading := false }
    | none =>
        { st with currentProjectData := none, isDataLoading := false }

/-- One run of the debounced save effect *body* (page.tsx:1571-1618) at
time `t`: the previous run's cleanup has cleared any pending timer; if
there is a buffer and loading is over, a fresh 400 ms timer is started
capturing the current buffer.  This handler-level version records only
the captured buffer; when and how often the effect re-runs — on every
change of `currentProjectData`, `isWritingToDb` or `isDataLoading`, per
its dependency array — is modelled by `saveEffectRun` and the setter
functions of the scheduler-level model below. -/
def debounceEffect (st : PageState) (t : Nat) : PageState :=
  let st0 := { st with writeTimeout := none }
  match st.currentProjectData with
  | some data =>
      if st.isDataLoading then st0
      else { st0 with writeTimeout := some (t + 400, data) }
  | none => st0

/-- A local edit at time `t`: every non-completion mutation handler
(`handleProjectTitleDescriptionChange`, `handleAddPhase`,
`handleUpdatePhase`, `handleDeletePhase`, `handleAddMicrotask`,
`handleDeleteMicrotask`, `handleUpdateTeam`, ...) replaces the buffer
synchronously through `setCurrentProjectData(prev => ...)`, after which
the debounced save effect re-runs. -/
def localEdit (st : PageState) (t : Nat) (f : Project → Project) :
    PageState :=
  debounceEffect { st with currentProjectData := st.currentProjectData.map f } t

/-- Title of the toast raised when the debounced save fails
(page.tsx:1600). -/
def saveErrorToast : String := "Save Error"

/-- The runtime key set of a `Microtask` object: the required fields of
the interface are always present (every constructor site in the
repository supplies them), optional fields are keys exactly when set. -/
def microtaskKeys (m : Microtask) : List String :=
  ["id", "name", "description", "estimatedTime", "isCompleted",
   "priority", "complexity", "dependencies", "tags"]
  ++ (if m.actualTime.isSome then ["actualTime"] else [])
  ++ (if m.notes.isSome then ["notes"] else [])
  ++ (if m.completedAt.isSome then ["completedAt"] else [])

/-- `const isCompletionUpdate = 'isCompleted' in updatedMicrotask`
(page.tsx:2130). -/
def isCompletionUpdate (updatedMicrotask : Microtask) : Bool :=
  (microtaskKeys updatedMicrotask).contains "isCompleted"

/-- The updated project tree built by `handleUpdateMicrotask`
(page.tsx:2137-2150 and 2176-2192): replace the matching microtask inside
the matching phase. -/
def updateMicrotaskInProject (proj : Project) (phaseId : String)
    (updatedMicrotask : Microtask) : Project :=
  { proj with
    phases := proj.phases.map (fun p =>
      if p.id = JVal.val phaseId then
        { p with microtasks := p.microtasks.map (fun mt =>
            if mt.id = updatedMicrotask.id then updatedMicrotask else mt) }
      else p) }

/-- `handleUpdateMicrotask` (page.tsx:2124-2194) called at time `t`.  In
the completion branch the write lock is set and a `set` of the whole
updated document is issued immediately — the buffer is *not* updated here
(that happens in the promise's `.then`, see
`completionWriteSettled`).  In the other branch the buffer is updated
synchronously and the debounce path takes over. -/
def handleUpdateMicrotask (st : PageState) (t : Nat) (phaseId : String)
    (updatedMicrotask : Microtask) : PageState :=
  match st.currentProjectData with
  | none => st
  | some cur =>
      if isCompletionUpdate updatedMicrotask then
        { st with isWritingToDb := true,
                  writes := st.writes ++
                    [(t, updateMicrotaskInProject cur phaseId updatedMicrotask)] }
      else
        let updated := updateMicrotaskInProject cur phaseId updatedMicrotask
        debounceEffect { st with currentProjectData := some updated } t

/-- Title of the toast raised when the completion-path write fails
(page.tsx:2166). -/
def updateErrorToast : String := "Update Error"

/-- The completion-path write settling at time `t`
(page.tsx:2158-2167): only on success is the local buffer replaced with
the updated document ("Update local state after successful database
update"), which re-runs the debounced save effect; on failure a toast is
raised and the buffer is left untouched. -/
def completionWriteSettled (st : PageState) (t : Nat)
    (updatedProject : Project) (success : Bool) : PageState :=
  if success then
    debounceEffect { st with currentProjectData := some updatedProject } t
  else
    { st with toasts := st.toasts ++ [updateErrorToast] }

/-- The completion-path `.finally` (page.tsx:2168-2173), scheduled 300 ms
after the write settles: only the write lock is released. -/
def completionCooldownRelease (st : PageState) : PageState :=
  { st with isWritingToDb := false }

/-!
## `MicrotaskItem` (components/mindscope/microtask-item)
-/

/-- `MicrotaskItem.handleToggleComplete` (microtask-item:48-81): builds
the updated microtask for a completion toggle.  `now` is `Date.now()`. -/
def handleToggleComplete (microtask : Microtask) (checked : Bool)
    (now : Nat) : Microtask :=
  let isCompleted := checked
  let updatedMicrotask : Microtask :=
    { microtask with
      isCompleted := isCompleted
      completedAt := if isCompleted then some now else none
      -- actualTime: isCompleted ? (microtask.actualTime || microtask.estimatedTime)
      --                         : microtask.actualTime
      actualTime :=
        if isCompleted then
          some (match microtask.actualTime with
            | some q => if q = 0 then microtask.estimatedTime else q
            | none => microtask.estimatedTime)
        else microtask.actualTime }
  if !isCompleted then
    let u1 := { updatedMicrotask with completedAt := none }
    if microtask.actualTime = none ∨
        microtask.actualTime = some microtask.estimatedTime then
      { u1 with actualTime := none }
    else u1
  else updatedMicrotask

/-- `MicrotaskItem.handleSave` (microtask-item:32-40):
`newEstimatedTime` is `parseFloat(editableTime) || 0`. -/
def handleSave (microtask : Microtask) (editableName : String)
    (newEstimatedTime : Rat) : Microtask :=
  { microtask with
    name := JVal.val editableName
    estimatedTime := newEstimatedTime }

/-!
## Optimization caching (lib/optimization-utils)
-/

/-- `generateProjectStateHash` (optimization-utils:8-27): the `stateData`
record the hash string is computed from. -/
def generateProjectStateHash (project : Project) : StateData :=
  { title := project.title
    description := project.description
    phasesCount := project.phases.length
    totalTasks :=
      project.phases.foldl (fun acc phase => acc + phase.microtasks.length) 0
    completedTasks :=
      project.phases.foldl (fun acc phase =>
        acc + (phase.microtasks.filter (fun task => task.isCompleted)).length) 0
    totalEstimatedTime := project.totalEstimatedTime
    progressPercentage := project.progressPercentage
    techStack := project.metadata.techStack
    complexity := project.metadata.complexity
    teamSize := project.metadata.teamSize }

/-- The `{ shouldRun, reason }` result of `shouldRunOptimization`. -/
structure OptimizationDecision where
  shouldRun : Bool
  reason : String
  deriving DecidableEq, Repr

/-- `shouldRunOptimization` (optimization-utils:32-58); `now` is
`Date.now()`. -/
def shouldRunOptimization (now : Nat) (project : Project) :
    OptimizationDecision :=
  match project.optimizationResults with
  | .val existingOptimization =>
      if generateProjectStateHash project ≠
          existingOptimization.projectStateHash then
        { shouldRun := true,
          reason := "Project structure has changed significantly" }
      else if 7 * 24 * 60 * 60 * 1000 < now - existingOptimization.generatedAt then
        { shouldRun := true, reason := "Optimization data is older than 7 days" }
      else
        { shouldRun := false, reason := "Recent optimization available" }
  | _ => { shouldRun := true, reason := "No previous optimization found" }

/-!
## Sample data used by witnesses
-/

/-- A concrete microtask in the shape `handleAddMicrotask`
(page.tsx:2098-2122) creates. -/
def sampleTask : Microtask :=
  { id := .val "t1"
    name := .val "Set up repo"
    description := ""
    estimatedTime := 2
    isCompleted := false
    priority := "medium"
    complexity := "moderate"
    dependencies := []
    tags := []
    actualTime := none
    notes := none
    completedAt := none }

/-- A concrete phase in the shape `handleAddPhase` (page.tsx:2069-2081)
creates, holding `sampleTask`. -/
def samplePhase : Phase :=
  { id := .val "ph1"
    name := .val "Phase 1"
    description := .val ""
    microtasks := [sampleTask]
    estimatedDuration := .val 7
    actualDuration := .absent
    startDate := .absent
    endDate := .absent
    milestone := .val false }

/-- A concrete normalized project holding `samplePhase`. -/
def sampleProject : Project :=
  { title := .val "Demo"
    description := .val ""
    phases := [samplePhase]
    team := .val []
    lastModified := .null
    metadata := defaultMetadata
    totalEstimatedTime := .val 2
    totalActualTime := .absent
    progressPercentage := 0
    createdAt := .val 0
    templateId := .absent
    optimizationResults := .absent }

/-- An idle page state: `sampleProject` loaded, no write in flight, no
pending timer. -/
def sampleState : PageState :=
  { currentProjectData := some sampleProject
    isWritingToDb := false
    isOptimisticUpdate := false
    isDataLoading := false
    writeTimeout := none
    writes := []
    toasts := [] }

/-- Every well-typed `Microtask` object has an `isCompleted` key, so the
`'isCompleted' in updatedMicrotask` test of page.tsx:2130 is `true` for
every argument `handleUpdateMicrotask` actually receives (all call sites
pass a full microtask object built by spreading an existing one). -/
theorem isCompletionUpdate_always_true (mt : Microtask) :
    isCompletionUpdate mt = true := by
  simp [isCompletionUpdate, microtaskKeys]

/-- C1: a remote snapshot for the active project arriving while
`isWritingToDb` or `isOptimisticUpdateRef` is set leaves the local edit
buffer unchanged (the notification is dropped); in every other state the
buffer is replaced with the normalized document. -/
theorem remote_snapshot_suppressed_or_applied (st : PageState)
    (data : RawProject) :
    ((st.isWritingToDb || st.isOptimisticUpdate) = true →
      (onActiveProjectValue st (some data)).currentProjectData
        = st.currentProjectData) ∧
    ((st.isWritingToDb || st.isOptimisticUpdate) = false →
      (onActiveProjectValue st (some data)).currentProjectData
        = some (normalizeProjectData data)) := by
  constructor <;> intro h <;> simp [onActiveProjectValue, h]

/-- Witness for C1, at a concrete write-locked state and a concrete
snapshot. -/
theorem remote_snapshot_suppressed_or_applied_witness :
    (({ sampleState with isWritingToDb := true } : PageState).isWritingToDb ||
      ({ sampleState with isWritingToDb := true } : PageState).isOptimisticUpdate) = true ∧
    (onActiveProjectValue { sampleState with isWritingToDb := true }
        (some (projectToRaw sampleProject))).currentProjectData
      = ({ sampleState with isWritingToDb := true } : PageState).currentProjectData :=
  ⟨by decide,
   (remote_snapshot_suppressed_or_applied
      { sampleState with isWritingToDb := true }
      (projectToRaw sampleProject)).1 (by decide)⟩

/-- C3: a completion toggle goes through the immediate branch of
`handleUpdateMicrotask`: the write of the whole updated document is issued
at the call time `t` itself (so it is observable well before the `t + 400`
deadline a debounce timer would have had), the write lock is taken, and no
debounce timer is consulted or scheduled. -/
theorem completion_toggle_writes_immediately (st : PageState)
    (t now : Nat) (phaseId : String) (m : Microtask) (c : Bool)
    (p : Project) (hb : st.currentProjectData = some p) :
    (handleUpdateMicrotask st t phaseId (handleToggleComplete m c now)).writes
      = st.writes ++
        [(t, updateMicrotaskInProject p phaseId (handleToggleComplete m c now))] ∧
    (handleUpdateMicrotask st t phaseId (handleToggleComplete m c now)).isWritingToDb
      = true ∧
    (handleUpdateMicrotask st t phaseId (handleToggleComplete m c now)).writeTimeout
      = st.writeTimeout := by
  simp [handleUpdateMicrotask, hb, isCompletionUpdate_always_true]

/-- Witness for C3: toggling `sampleTask` complete at `t = 1000` in the
idle `sampleState` (no pending edit). -/
theorem completion_toggle_writes_immediately_witness :
    sampleState.currentProjectData = some sampleProject ∧
    (handleUpdateMicrotask sampleState 1000 "ph1"
        (handleToggleComplete sampleTask true 500)).writes
      = sampleState.writes ++
        [(1000, updateMicrotaskInProject sampleProject "ph1"
            (handleToggleComplete sampleTask true 500))] :=
  ⟨rfl,
   (completion_toggle_writes_immediately sampleState 1000 500 "ph1"
      sampleTask true sampleProject rfl).1⟩

/-- C4: evaluation at the failing input.  Editing only `sampleTask`'s name
and estimated time through `MicrotaskItem.handleSave` produces an object
that still has an `isCompleted` key (every microtask object does), so
`handleUpdateMicrotask` takes the immediate-write branch: a write is
issued at once, the write lock is taken, and no debounce timer is
scheduled — the debounced branch (page.tsx:2174-2193) is unreachable for
the arguments the UI passes. -/
theorem name_edit_takes_immediate_write_path :
    (handleSave sampleTask "Set up repository" 3).isCompleted
      = sampleTask.isCompleted ∧
    isCompletionUpdate (handleSave sampleTask "Set up repository" 3) = true ∧
    (handleUpdateMicrotask sampleState 1000 "ph1"
        (handleSave sampleTask "Set up repository" 3)).writes.length = 1 ∧
    (handleUpdateMicrotask sampleState 1000 "ph1"
        (handleSave sampleTask "Set up repository" 3)).isWritingToDb = true ∧
    (handleUpdateMicrotask sampleState 1000 "ph1"
        (handleSave sampleTask "Set up repository" 3)).writeTimeout = none := by
  decide

/-- C5 counterexample: toggle `sampleTask` complete at `t = 1000`.  The
write is in flight (`writes` grew, the lock is held), the toggled object
has `isCompleted = true`, yet the local buffer still holds the original
`sampleProject` whose only task has `isCompleted = false` — the buffer
does not reflect the toggled value while the write is in flight; it is
only replaced in the promise's `.then`. -/
theorem buffer_unchanged_while_completion_write_in_flight :
    (handleToggleComplete sampleTask true 500).isCompleted = true ∧
    (handleUpdateMicrotask sampleState 1000 "ph1"
        (handleToggleComplete sampleTask true 500)).writes.length = 1 ∧
    (handleUpdateMicrotask sampleState 1000 "ph1"
        (handleToggleComplete sampleTask true 500)).isWritingToDb = true ∧
    (handleUpdateMicrotask sampleState 1000 "ph1"
        (handleToggleComplete sampleTask true 500)).currentProjectData
      = some sampleProject ∧
    (sampleProject.phases.flatMap (fun ph => ph.microtasks)).all
        (fun m => !m.isCompleted) = true := by
  decide

/-- C5 as amended: non-completion mutations update the buffer
synchronously, before any write is issued; the completion path issues its
write first and the buffer reflects the toggled document only once the
write resolves successfully (`completionWriteSettled` with success), not
while it is in flight. -/
theorem optimistic_buffer_update_semantics (st : PageState)
    (t tSettle : Nat) (f : Project → Project) (phaseId : String)
    (mt : Microtask) (p : Project) (hb : st.currentProjectData = some p) :
    (localEdit st t f).currentProjectData = some (f p) ∧
    (localEdit st t f).writes = st.writes ∧
    (handleUpdateMicrotask st t phaseId mt).currentProjectData = some p ∧
    (completionWriteSettled (handleUpdateMicrotask st t phaseId mt) tSettle
        (updateMicrotaskInProject p phaseId mt) true).currentProjectData
      = some (updateMicrotaskInProject p phaseId mt) := by
  refine ⟨?_, ?_, ?_, ?_⟩
  · simp [localEdit, debounceEffect, hb]
    split <;> rfl
  · simp [localEdit, debounceEffect, hb]
    split <;> rfl
  · simp [handleUpdateMicrotask, hb, isCompletionUpdate_always_true]
  · simp [handleUpdateMicrotask, hb, isCompletionUpdate_always_true,
          completionWriteSettled, debounceEffect]
    split <;> rfl

/-- Witness for the amended C5, at the concrete toggle scenario. -/
theorem optimistic_buffer_update_semantics_witness :
    sampleState.currentProjectData = some sampleProject ∧
    (completionWriteSettled
        (handleUpdateMicrotask sampleState 1000 "ph1"
          (handleToggleComplete sampleTask true 500)) 1100
        (updateMicrotaskInProject sampleProject "ph1"
          (handleToggleComplete sampleTask true 500)) true).currentProjectData
      = some (updateMicrotaskInProject sampleProject "ph1"
          (handleToggleComplete sampleTask true 500)) :=
  ⟨rfl,
   (optimistic_buffer_update_semantics sampleState 1000 1100 id "ph1"
      (handleToggleComplete sampleTask true 500) sampleProject rfl).2.2.2⟩

/-- C7: toggling completion establishes the `completedAt`-iff-`isCompleted`
invariant: toggling to `true` stamps the completion time and, when no
manual actual time was recorded, defaults `actualTime` to
`estimatedTime`; toggling to `false` deletes `completedAt`; and the
invariant survives a round-trip of the document through
`normalizeProjectData`'s per-task cleaning. -/
theorem completion_timestamp_iff_flag (m : Microtask) (c : Bool)
    (now : Nat) :
    (handleToggleComplete m c now).isCompleted = c ∧
    ((handleToggleComplete m c now).completedAt.isSome ↔ c = true) ∧
    (c = true → (handleToggleComplete m c now).completedAt = some now) ∧
    (c = false → (handleToggleComplete m c now).completedAt = none) ∧
    (c = true → m.actualTime = none →
      (handleToggleComplete m c now).actualTime = some m.estimatedTime) ∧
    (normalizeMicrotask (microtaskToRaw (handleToggleComplete m c now))).isCompleted
      = c ∧
    ((normalizeMicrotask (microtaskToRaw (handleToggleComplete m c now))).completedAt.isSome
      ↔ c = true) := by
  cases c <;>
    simp [handleToggleComplete, normalizeMicrotask, microtaskToRaw, jsOrFalse]
  · split <;> simp
  · intro h
    simp [h]

/-- Witness for C7: completing and un-completing `sampleTask`. -/
theorem completion_timestamp_iff_flag_witness :
    ((handleToggleComplete sampleTask true 500).completedAt = some 500 ∧
      (handleToggleComplete sampleTask true 500).actualTime
        = some sampleTask.estimatedTime) ∧
    (handleToggleComplete sampleTask false 500).completedAt = none :=
  ⟨⟨(completion_timestamp_iff_flag sampleTask true 500).2.2.1 rfl,
    (completion_timestamp_iff_flag sampleTask true 500).2.2.2.2.1 rfl rfl⟩,
   (completion_timestamp_iff_flag sampleTask false 500).2.2.2.1 rfl⟩

/-!
## Round-trip lemmas for normalization (C8)
-/

theorem jsOrString_val_empty (s : String) : jsOrString "" (.val s) = s := by
  by_cases h : s = "" <;> simp [jsOrString, h]

theorem jsOrNum_val_zero (q : Rat) : jsOrNum 0 (.val q) = q := by
  by_cases h : q = 0 <;> simp [jsOrNum, h]

theorem jsOrString_idem (d : String) (hd : ¬ d = "") (x : JVal String) :
    jsOrString d (.val (jsOrString d x)) = jsOrString d x := by
  cases x with
  | absent => simp [jsOrString, hd]
  | null => simp [jsOrString, hd]
  | val s => by_cases h : s = "" <;> simp [jsOrString, h, hd]

theorem JVal.spread_idem {α : Type} (dflt x : JVal α) :
    JVal.spread dflt (JVal.spread dflt x) = JVal.spread dflt x := by
  cases x <;> cases dflt <;> rfl

theorem microtask_eq_of_fields {a b : Microtask} (h1 : a.id = b.id)
    (h2 : a.name = b.name) (h3 : a.description = b.description)
    (h4 : a.estimatedTime = b.estimatedTime)
    (h5 : a.isCompleted = b.isCompleted) (h6 : a.priority = b.priority)
    (h7 : a.complexity = b.complexity)
    (h8 : a.dependencies = b.dependencies) (h9 : a.tags = b.tags)
    (h10 : a.actualTime = b.actualTime) (h11 : a.notes = b.notes)
    (h12 : a.completedAt = b.completedAt) : a = b := by
  cases a; cases b; simp_all

theorem phase_eq_of_fields {a b : Phase} (h1 : a.id = b.id)
    (h2 : a.name = b.name) (h3 : a.description = b.description)
    (h4 : a.microtasks = b.microtasks)
    (h5 : a.estimatedDuration = b.estimatedDuration)
    (h6 : a.actualDuration = b.actualDuration)
    (h7 : a.startDate = b.startDate) (h8 : a.endDate = b.endDate)
    (h9 : a.milestone = b.milestone) : a = b := by
  cases a; cases b; simp_all

theorem project_eq_of_fields {a b : Project} (h1 : a.title = b.title)
    (h2 : a.description = b.description) (h3 : a.phases = b.phases)
    (h4 : a.team = b.team) (h5 : a.lastModified = b.lastModified)
    (h6 : a.metadata = b.metadata)
    (h7 : a.totalEstimatedTime = b.totalEstimatedTime)
    (h8 : a.totalActualTime = b.totalActualTime)
    (h9 : a.progressPercentage = b.progressPercentage)
    (h10 : a.createdAt = b.createdAt) (h11 : a.templateId = b.templateId)
    (h12 : a.optimizationResults = b.optimizationResults) : a = b := by
  cases a; cases b; simp_all

theorem normalizeMicrotask_roundtrip (r : RawMicrotask) :
    normalizeMicrotask (microtaskToRaw (normalizeMicrotask r))
      = normalizeMicrotask r := by
  apply microtask_eq_of_fields
  · rfl
  · rfl
  · exact jsOrString_val_empty _
  · exact jsOrNum_val_zero _
  · rfl
  · exact jsOrString_idem _ (by decide) _
  · exact jsOrString_idem _ (by decide) _
  · rfl
  · rfl
  · simp only [normalizeMicrotask, microtaskToRaw]
    cases r.actualTime <;> rfl
  · simp only [normalizeMicrotask, microtaskToRaw]
    cases r.notes with
    | absent => rfl
    | null => rfl
    | val s => by_cases h : s = "" <;> simp [h]
  · simp only [normalizeMicrotask, microtaskToRaw]
    cases r.completedAt <;> rfl

theorem normalizePhase_roundtrip (ph : RawPhase) :
    normalizePhase (phaseToRaw (normalizePhase ph)) = normalizePhase ph := by
  apply phase_eq_of_fields <;> try rfl
  show ((((jsOrList ph.microtasks).map normalizeMicrotask).map
      microtaskToRaw).map normalizeMicrotask)
    = (jsOrList ph.microtasks).map normalizeMicrotask
  simp only [List.map_map]
  apply List.map_congr_left
  intro a _
  exact normalizeMicrotask_roundtrip a

theorem normalizePhasesField_roundtrip (x : JVal (List RawPhase)) :
    normalizePhasesField
      (JVal.spread DEFAULT_PROJECT.phases
        (JVal.val ((normalizePhasesField x).map phaseToRaw)))
      = normalizePhasesField x := by
  cases x with
  | absent =>
      simp [normalizePhasesField, JVal.spread, DEFAULT_PROJECT]
  | null =>
      simp [normalizePhasesField, JVal.spread]
  | val l =>
      simp only [normalizePhasesField, JVal.spread, List.map_map]
      apply List.map_congr_left
      intro a _
      exact normalizePhase_roundtrip a

/-- C8: `normalizeProjectData` is idempotent — normalizing the raw form
of an already-normalized document returns it unchanged — it ignores the
raw document's `progressPercentage` entirely, and the output's
`progressPercentage` is recomputed from the normalized microtask
completion state. -/
theorem normalizeProjectData_idempotent (d : RawProject) (q : JVal Rat) :
    normalizeProjectData (projectToRaw (normalizeProjectData d))
      = normalizeProjectData d ∧
    normalizeProjectData { d with progressPercentage := q }
      = normalizeProjectData d ∧
    (normalizeProjectData d).progressPercentage
      = calculateProjectProgress (normalizeProjectData d).phases := by
  have hph :
      normalizePhasesField
        (JVal.spread DEFAULT_PROJECT.phases
          (JVal.val
            ((normalizePhasesField
                (JVal.spread DEFAULT_PROJECT.phases d.phases)).map phaseToRaw)))
        = normalizePhasesField (JVal.spread DEFAULT_PROJECT.phases d.phases) :=
    normalizePhasesField_roundtrip (JVal.spread DEFAULT_PROJECT.phases d.phases)
  refine ⟨?_, ?_, rfl⟩
  · apply project_eq_of_fields
    · exact JVal.spread_idem _ _
    · exact JVal.spread_idem _ _
    · exact hph
    · exact JVal.spread_idem _ _
    · exact JVal.spread_idem _ _
    · rfl
    · exact JVal.spread_idem _ _
    · exact JVal.spread_idem _ _
    · exact congrArg calculateProjectProgress hph
    · exact JVal.spread_idem _ _
    · exact JVal.spread_idem _ _
    · exact JVal.spread_idem _ _
  · apply project_eq_of_fields <;> rfl

/-!
## C9: what `cleanUndefinedValues` does and does not remove
-/

/-- The property claimed of the transmitted document: no
`undefined`-valued object field *and no `undefined` array element* at any
depth. -/
def noUndefAnywhere : JSVal → Bool
  | .undef => false
  | .null => true
  | .bool _ => true
  | .num _ => true
  | .str _ => true
  | .arr l => l.attach.all (fun x => noUndefAnywhere x.1)
  | .obj kvs => kvs.attach.all (fun kv => noUndefAnywhere kv.1.2)
termination_by v => sizeOf v
decreasing_by
  · have := List.sizeOf_lt_of_mem x.2
    simp at *
    omega
  · have := sizeOf_snd_lt kv.2
    simp at *
    omega

theorem noUndefAnywhere_arr (l : List JSVal) :
    noUndefAnywhere (.arr l) = l.all (fun x => noUndefAnywhere x) := by
  rw [noUndefAnywhere]
  exact all_attach l (fun x => noUndefAnywhere x)

theorem noUndefAnywhere_obj (kvs : List (String × JSVal)) :
    noUndefAnywhere (.obj kvs)
      = kvs.all (fun kv => noUndefAnywhere kv.2) := by
  rw [noUndefAnywhere]
  exact all_attach kvs (fun kv => noUndefAnywhere kv.2)

/-- `cleanUndefinedValues` never turns a non-`undefined` value into
`undefined`. -/
theorem clean_ne_undef {v : JSVal} (h : v ≠ JSVal.undef) :
    cleanUndefinedValues v ≠ JSVal.undef := by
  cases v with
  | undef => exact absurd rfl h
  | null => simp [cleanUndefinedValues]
  | bool b => simp [cleanUndefinedValues]
  | num q => simp [cleanUndefinedValues]
  | str s => simp [cleanUndefinedValues]
  | arr l => simp [clean_arr]
  | obj kvs => simp [clean_obj]

/-- C9 counterexample: the document `{ a: [undefined] }` is returned by
`cleanUndefinedValues` unchanged — `cleanUndefinedValues` maps over array
elements but only object keys are filtered, and
`typeof undefined !== 'object'` returns `undefined` itself untouched — so
the cleaned document still contains an `undefined` array element. -/
theorem clean_keeps_undefined_array_element :
    cleanUndefinedValues (.obj [("a", .arr [.undef])])
      = .obj [("a", .arr [.undef])] ∧
    noUndefAnywhere
      (cleanUndefinedValues (.obj [("a", .arr [.undef])])) = false := by
  have h1 : cleanUndefinedValues (.obj [("a", .arr [.undef])])
      = .obj [("a", .arr [.undef])] := by
    rw [clean_obj]
    simp [List.filter, clean_arr, cleanUndefinedValues]
  refine ⟨h1, ?_⟩
  rw [h1, noUndefAnywhere_obj]
  simp [noUndefAnywhere_arr, noUndefAnywhere]

/-- C9 as amended: `cleanUndefinedValues` removes every
`undefined`-valued *object field*, recursively through nested objects and
arrays; `undefined` *array elements* are mapped to themselves and remain
in place. -/
theorem clean_removes_undefined_object_fields (v : JSVal) :
    noUndefObjField (cleanUndefinedValues v) = true := by
  generalize hn : sizeOf v = n
  induction n using Nat.strong_induction_on generalizing v with
  | _ n ih =>
      cases v with
      | undef => simp [cleanUndefinedValues, noUndefObjField]
      | null => simp [cleanUndefinedValues, noUndefObjField]
      | bool b => simp [cleanUndefinedValues, noUndefObjField]
      | num q => simp [cleanUndefinedValues, noUndefObjField]
      | str s => simp [cleanUndefinedValues, noUndefObjField]
      | arr l =>
          subst hn
          rw [clean_arr, noUndef_arr, List.all_eq_true]
          intro x hx
          rw [List.mem_map] at hx
          obtain ⟨y, hy, rfl⟩ := hx
          have hsz : sizeOf y < sizeOf (JSVal.arr l) := by
            have := List.sizeOf_lt_of_mem hy
            simp
            omega
          exact ih (sizeOf y) hsz y rfl
      | obj kvs =>
          subst hn
          rw [clean_obj, noUndef_obj, List.all_eq_true]
          intro kv hkv
          rw [List.mem_map] at hkv
          obtain ⟨⟨k, w⟩, hmem, rfl⟩ := hkv
          have hpred := List.of_mem_filter hmem
          have hw : w ≠ JSVal.undef := by
            intro hEq
            subst hEq
            simp at hpred
          have hne : cleanUndefinedValues w ≠ JSVal.undef := clean_ne_undef hw
          have hsz : sizeOf w < sizeOf (JSVal.obj kvs) := by
            have := sizeOf_snd_lt (List.mem_of_mem_filter hmem)
            simp at this ⊢
            omega
          have hrec : noUndefObjField (cleanUndefinedValues w) = true :=
            ih (sizeOf w) hsz w rfl
          simp only [hrec, Bool.and_true]
          cases hcw : cleanUndefinedValues w <;> simp_all

/-- C10: the project-state hash is a function of title, description,
phase count, total and completed microtask counts, `totalEstimatedTime`,
`progressPercentage`, tech stack, complexity and team size alone; any two
projects agreeing on those (and holding the same cached optimization)
also agree on `shouldRunOptimization`'s verdict, at any time. -/
theorem hash_depends_only_on_summary (p q : Project) (now : Nat)
    (h1 : p.title = q.title) (h2 : p.description = q.description)
    (h3 : p.phases.length = q.phases.length)
    (h4 : p.phases.foldl (fun acc phase => acc + phase.microtasks.length) 0
        = q.phases.foldl (fun acc phase => acc + phase.microtasks.length) 0)
    (h5 : p.phases.foldl (fun acc phase =>
            acc + (phase.microtasks.filter (fun task => task.isCompleted)).length) 0
        = q.phases.foldl (fun acc phase =>
            acc + (phase.microtasks.filter (fun task => task.isCompleted)).length) 0)
    (h6 : p.totalEstimatedTime = q.totalEstimatedTime)
    (h7 : p.progressPercentage = q.progressPercentage)
    (h8 : p.metadata.techStack = q.metadata.techStack)
    (h9 : p.metadata.complexity = q.metadata.complexity)
    (h10 : p.metadata.teamSize = q.metadata.teamSize)
    (h11 : p.optimizationResults = q.optimizationResults) :
    generateProjectStateHash p = generateProjectStateHash q ∧
    shouldRunOptimization now p = shouldRunOptimization now q := by
  have hh : generateProjectStateHash p = generateProjectStateHash q := by
    simp only [generateProjectStateHash]
    rw [h1, h2, h3, h4, h5, h6, h7, h8, h9, h10]
  exact ⟨hh, by simp only [shouldRunOptimization, h11, hh]⟩

/-- First witness task: completed in project A. -/
def wTaskA1 : Microtask :=
  { sampleTask with
    id := .val "a1"
    name := .val "Design schema"
    isCompleted := true
    completedAt := some 10
    actualTime := some 2 }

/-- Second witness task: open in project A. -/
def wTaskA2 : Microtask :=
  { sampleTask with
    id := .val "a2"
    name := .val "Write API"
    estimatedTime := 3 }

/-- Third witness task, in the other phase. -/
def wTaskB1 : Microtask :=
  { sampleTask with
    id := .val "b1"
    name := .val "Build UI"
    estimatedTime := 5 }

def wPhase1 : Phase :=
  { samplePhase with
    id := .val "p1"
    name := .val "Backend"
    microtasks := [wTaskA1, wTaskA2] }

def wPhase2 : Phase :=
  { samplePhase with
    id := .val "p2"
    name := .val "Frontend"
    microtasks := [wTaskB1] }

/-- Witness project before attaching cached optimization results. -/
def hashProjA0 : Project :=
  { sampleProject with
    phases := [wPhase1, wPhase2]
    totalEstimatedTime := .val 10
    progressPercentage := 33 }

/-- Cached optimization results for the witness project, hashed at its
state. -/
def wOptResults : OptimizationResults :=
  { optimizations := ["Parallelize phase work"]
    timelinePrediction := "6 weeks"
    scopeAdjustments := []
    riskAlerts := []
    generatedAt := 0
    projectStateHash := generateProjectStateHash hashProjA0 }

/-- Witness project A: carries the cached optimization results. -/
def hashProjA : Project :=
  { hashProjA0 with optimizationResults := .val wOptResults }

/-- `wTaskA1` with the completion moved off it, renamed, re-prioritised. -/
def wTaskA1e : Microtask :=
  { wTaskA1 with
    isCompleted := false
    completedAt := none
    actualTime := none
    name := .val "Design schema v2"
    priority := "high" }

/-- `wTaskA2` now completed instead, with edited description, tags and
notes. -/
def wTaskA2e : Microtask :=
  { wTaskA2 with
    isCompleted := true
    completedAt := some 20
    tags := ["api"]
    notes := some "urgent"
    description := "REST endpoints" }

/-- `wPhase1` renamed and re-described, with the edited tasks. -/
def wPhase1e : Phase :=
  { wPhase1 with
    name := .val "Server work"
    description := .val "backend things"
    microtasks := [wTaskA1e, wTaskA2e] }

/-- Witness project B: phases reordered, phase and tasks renamed,
task description/priority/tags/notes edited, and the completion swapped
from one microtask to another (completed count unchanged). -/
def hashProjB : Project :=
  { hashProjA with phases := [wPhase2, wPhase1e] }

/-- Witness for C10: after renaming, re-describing, re-tagging,
re-prioritising, reordering phases and swapping which microtask is
completed, the hash is unchanged and the cached optimization is still
reported as fresh. -/
theorem hash_depends_only_on_summary_witness :
    (hashProjA.phases ≠ hashProjB.phases) ∧
    generateProjectStateHash hashProjA = generateProjectStateHash hashProjB ∧
    shouldRunOptimization 1000 hashProjA
      = shouldRunOptimization 1000 hashProjB ∧
    (shouldRunOptimization 1000 hashProjB).shouldRun = false :=
  ⟨by decide,
   (hash_depends_only_on_summary hashProjA hashProjB 1000 (by decide)
      (by decide) (by decide) (by decide) (by decide) (by decide)
      (by decide) (by decide) (by decide) (by decide) (by decide)).1,
   (hash_depends_only_on_summary hashProjA hashProjB 1000 (by decide)
      (by decide) (by decide) (by decide) (by decide) (by decide)
      (by decide) (by decide) (by decide) (by decide) (by decide)).2,
   by decide⟩

/-!
## Scheduler-level model: effect re-runs forced by the dependency arrays

The debounced save effect's dependency array (page.tsx:1618) is
`[currentProjectData, authUser, activeProjectId, toast, isDataLoading,
isWritingToDb]`.  Every change to one of those state values re-renders
the component and re-runs the effect: the previous run's cleanup
(page.tsx:1612-1616) clears the pending timeout and, whenever the guard
`authUser && activeProjectId && currentProjectData && !isDataLoading`
holds, a fresh 400 ms timeout is scheduled — unconditionally, with no
dirty check.  The timeout callback reads the `currentProjectData` and
`isWritingToDb` values captured by its closure at effect-run time.
Setting a state value to the one it already holds does not re-render
(`Object.is` bail-out), but `setCurrentProjectData` always receives a
freshly allocated object, so a buffer update always re-runs the effect.

The active-project `onValue` effect's dependency array (page.tsx:1550)
also lists `isWritingToDb`, so lock changes additionally re-subscribe
the listener, which re-delivers the current snapshot; that echo flows
through the same handler modelled by `onActiveProjectValue` and, when
applied, updates the buffer and re-triggers the save effect as well.
The traces below do not need it: the save effect's own dependencies
already re-issue writes.
-/

/-- Page state for the scheduler-level model: as `PageState`, but the
pending timer also records the `isWritingToDb` value captured by the
`setTimeout` closure (page.tsx:1578-1580). -/
structure SyncState where
  currentProjectData : Option Project
  isWritingToDb : Bool
  isOptimisticUpdate : Bool
  isDataLoading : Bool
  /-- pending flush timer: deadline, captured `currentProjectData`,
  captured `isWritingToDb`. -/
  writeTimeout : Option (Nat × Project × Bool)
  writes : List (Nat × Project)
  toasts : List String
  deriving DecidableEq, Repr

/-- One run of the debounced save effect (page.tsx:1571-1618) at time
`t`: the previous run's cleanup has cleared the pending timeout; if the
guard holds, a fresh 400 ms timeout is scheduled whose closure captures
the current `currentProjectData` and `isWritingToDb`. -/
def saveEffectRun (st : SyncState) (t : Nat) : SyncState :=
  let st0 := { st with writeTimeout := none }
  match st.currentProjectData with
  | some data =>
      if st.isDataLoading then st0
      else { st0 with writeTimeout := some (t + 400, data, st.isWritingToDb) }
  | none => st0

/-- `setCurrentProjectData` at time `t`: the new buffer object has fresh
identity, so the re-render always re-runs the save effect
(`currentProjectData` is in its dependency array). -/
def setBuffer (st : SyncState) (t : Nat) (v : Option Project) : SyncState :=
  saveEffectRun { st with currentProjectData := v } t

/-- `setIsWritingToDb` at time `t`: when the value actually changes, the
re-render re-runs the save effect (`isWritingToDb` is in its dependency
array); setting the value it already holds bails out. -/
def setWriting (st : SyncState) (t : Nat) (b : Bool) : SyncState :=
  if st.isWritingToDb = b then st
  else saveEffectRun { st with isWritingToDb := b } t

/-- A local edit at time `t` in the scheduler-level model. -/
def editAt (st : SyncState) (t : Nat) (f : Project → Project) : SyncState :=
  setBuffer st t (st.currentProjectData.map f)

/-- The debounce timeout callback firing at time `t`
(page.tsx:1578-1610): before the deadline nothing happens; at the
deadline, if the *captured* `isWritingToDb` is set the flush is skipped;
otherwise `setIsWritingToDb(true)` runs — re-rendering and re-running
the save effect, which schedules a fresh timer that captures the held
lock — and one `set` of the captured buffer is issued. -/
def timerFires (st : SyncState) (t : Nat) : SyncState :=
  match st.writeTimeout with
  | some (deadline, data, capturedWriting) =>
      if deadline ≤ t then
        let st1 := { st with writeTimeout := none }
        if capturedWriting then st1
        else
          let st2 := setWriting st1 t true
          { st2 with writes := st2.writes ++ [(t, data)] }
      else st
  | none => st

/-- The flush promise settling (page.tsx:1594-1601): `.then` only logs;
`.catch` raises the "Save Error" toast.  No dependency of the save
effect changes here. -/
def flushSettles (st : SyncState) (success : Bool) : SyncState :=
  if success then st
  else { st with toasts := st.toasts ++ [saveErrorToast] }

/-- The `.finally` release, scheduled 200 ms after the write settles
(page.tsx:1602-1609): `setIsWritingToDb(false)` re-renders and re-runs
the save effect — which schedules a fresh 400 ms flush of the
still-current buffer — and the optimistic-update ref is cleared (a ref
write, no re-render of its own). -/
def lockReleases (st : SyncState) (t : Nat) : SyncState :=
  { setWriting st t false with isOptimisticUpdate := false }

/-- Edit the project title (the buffer transformation performed by
`handleProjectTitleDescriptionChange`, title part). -/
def setTitle (s : String) : Project → Project :=
  fun p => { p with title := JVal.val s }

/-- An idle scheduler-level state: `sampleProject` loaded, no write in
flight, no pending timer. -/
def sampleSyncState : SyncState :=
  { currentProjectData := some sampleProject
    isWritingToDb := false
    isOptimisticUpdate := false
    isDataLoading := false
    writeTimeout := none
    writes := []
    toasts := [] }

/-- C2: evaluation at the failing input.  One single edit at `t = 0` and
no further edits: the flush timer set by the edit fires at `t = 400` and
issues the burst's write (trailing edge, payload = buffer after the
edit).  But taking the write lock re-runs the save effect, and when the
`.finally` release at `t = 700` flips the lock back, the effect re-runs
once more and schedules a fresh 400 ms flush of the unchanged buffer —
which fires at `t = 1100` and issues a second, identical write with no
user action in between (and takes the lock again, so the cycle repeats).
The burst therefore causes more than one remote write. -/
theorem burst_reissues_write_after_release :
    (editAt sampleSyncState 0 (setTitle "A")).writes = [] ∧
    (editAt sampleSyncState 0 (setTitle "A")).writeTimeout
      = some (400, setTitle "A" sampleProject, false) ∧
    (timerFires (editAt sampleSyncState 0 (setTitle "A")) 400).writes
      = [(400, setTitle "A" sampleProject)] ∧
    (lockReleases
        (flushSettles (timerFires (editAt sampleSyncState 0 (setTitle "A")) 400)
          true) 700).writeTimeout
      = some (1100, setTitle "A" sampleProject, false) ∧
    (timerFires
        (lockReleases
          (flushSettles
            (timerFires (editAt sampleSyncState 0 (setTitle "A")) 400) true)
          700) 1100).writes
      = [(400, setTitle "A" sampleProject),
         (1100, setTitle "A" sampleProject)] := by
  decide

/-- C6: evaluation at the failing input.  The flush of the edited buffer
fails at settle time: the buffer is preserved and the "Save Error" toast
is raised (as the claim says), but when the `.finally` release at
`t = 700` flips the write lock, the save effect re-runs on that
dependency change and schedules a fresh 400 ms flush of the still-dirty
buffer, which fires at `t = 1100` and re-issues the failed write with no
user action — an automatic retry is scheduled, contrary to the claim. -/
theorem failed_flush_schedules_automatic_retry :
    (flushSettles (timerFires (editAt sampleSyncState 0 (setTitle "A")) 400)
        false).currentProjectData = some (setTitle "A" sampleProject) ∧
    (flushSettles (timerFires (editAt sampleSyncState 0 (setTitle "A")) 400)
        false).toasts = [saveErrorToast] ∧
    (flushSettles (timerFires (editAt sampleSyncState 0 (setTitle "A")) 400)
        false).writes = [(400, setTitle "A" sampleProject)] ∧
    (lockReleases
        (flushSettles (timerFires (editAt sampleSyncState 0 (setTitle "A")) 400)
          false) 700).writeTimeout
      = some (1100, setTitle "A" sampleProject, false) ∧
    (timerFires
        (lockReleases
          (flushSettles
            (timerFires (editAt sampleSyncState 0 (setTitle "A")) 400) false)
          700) 1100).writes
      = [(400, setTitle "A" sampleProject),
         (1100, setTitle "A" sampleProject)] := by
  decide
